import Mathlib

/-!
Shallow embedding of the HTTP handler of tf-kubernetes-configmap-backend
(pkg/http/handler.go).  The Kubernetes collaborators (token review,
subject access review, the ConfigMap store) and the gzip / JSON-minify
streams from the standard library are modelled as abstract functions
carried in the `Handler` structure, mirroring the fields of the Go
`handler` struct.  Go maps are modelled as association lists with Go's
zero-value and comma-ok lookup semantics.  Each HTTP handler is a pure
function returning the response together with the list of collaborator
calls it performed, so that claims about "no store mutation on this
path" are statable.
-/

/-- The four reserved lock-state keys (constants from handler.go).  The
shared key prefix is inlined into each constant. -/
def annotationKeyLockID : String :=
  "tf-kubernetes-configmap-backend.jimmidyson.github.com/lock-id"

def annotationKeyLockOperation : String :=
  "tf-kubernetes-configmap-backend.jimmidyson.github.com/lock-operation"

def annotationKeyLockInfo : String :=
  "tf-kubernetes-configmap-backend.jimmidyson.github.com/lock-info"

def annotationKeyLockWho : String :=
  "tf-kubernetes-configmap-backend.jimmidyson.github.com/lock-who"

/-- lockInfo from handler.go: lock metadata decoded from / encoded to the
request and conflict-response JSON bodies. -/
structure lockInfo where
  ID : String
  Operation : String
  Info : String
  Who : String
deriving DecidableEq, Repr

/-- A Go `map[string]string`, modelled as an association list with unique
keys.  A nil map and an empty map are observationally identical for the
operations the handler performs, so both are the empty list. -/
abbrev Gomap := List (String × String)

/-- Comma-ok lookup: `v, ok := m[k]`. -/
def gomapFind (m : Gomap) (k : String) : Option String :=
  (m.find? (fun p => p.1 == k)).map (fun p => p.2)

/-- Zero-value lookup: `m[k]`, yielding `""` when the key is absent. -/
def gomapGetZ (m : Gomap) (k : String) : String :=
  (gomapFind m k).getD ""

/-- Map assignment `m[k] = v` (replaces any previous binding of `k`). -/
def gomapInsert (m : Gomap) (k v : String) : Gomap :=
  (m.filter (fun p => p.1 != k)) ++ [(k, v)]

/-- `delete(m, k)`. -/
def gomapDelete (m : Gomap) (k : String) : Gomap :=
  m.filter (fun p => p.1 != k)

/-- A Go `map[string][]byte` (the ConfigMap's BinaryData), bytes as
`List Nat`. -/
abbrev GomapB := List (String × List Nat)

/-- Comma-ok lookup on BinaryData. -/
def gomapFindB (m : GomapB) (k : String) : Option (List Nat) :=
  (m.find? (fun p => p.1 == k)).map (fun p => p.2)

/-- Map assignment on BinaryData. -/
def gomapInsertB (m : GomapB) (k : String) (v : List Nat) : GomapB :=
  (m.filter (fun p => p.1 != k)) ++ [(k, v)]

/-- The parts of a v1.ConfigMap the handler reads or writes.  client-go's
Get returns a freshly allocated empty ConfigMap alongside a NotFound
error, which the dispatcher then passes to the verb handlers, so the
"object absent" case is the default value. -/
structure ConfigMap where
  name : String := ""
  annotations : Gomap := []
  binaryData : GomapB := []
deriving DecidableEq, Repr

/-- A Kubernetes API error: either a structured `*errors.StatusError`
carrying an HTTP code and a reason, or any other error value. -/
inductive APIError where
  | statusError (code : Nat) (reason : String) (msg : String)
  | otherError (msg : String)
deriving DecidableEq, Repr

/-- `errors.IsNotFound`. -/
def isNotFound : APIError → Bool
  | .statusError _ reason _ => reason == "NotFound"
  | .otherError _ => false

/-- Identity returned by a successful TokenReview. -/
structure UserInfo where
  username : String := ""
  uid : String := ""
deriving DecidableEq, Repr

/-- TokenReview response status. -/
structure TokenReviewStatus where
  authenticated : Bool
  user : UserInfo
deriving DecidableEq, Repr

/-- What the handler writes as a response body on each terminal path:
nothing, diagnostic text, the JSON encoding of a lockInfo record, or raw
state bytes. -/
inductive RespBody where
  | empty
  | text (s : String)
  | lockJSON (l : lockInfo)
  | stateBytes (bs : List Nat)
deriving DecidableEq, Repr

/-- The observable response.  `explicitStatus = none` means the handler
returned without calling WriteHeader, in which case net/http sends
`200 OK`. -/
structure HttpResponse where
  explicitStatus : Option Nat := none
  headers : List (String × String) := []
  body : RespBody := .empty
deriving DecidableEq, Repr

/-- The status code the client observes (net/http defaults to 200 when
WriteHeader was never called). -/
def observedStatus (r : HttpResponse) : Nat :=
  r.explicitStatus.getD 200

/-- One outbound collaborator call, recorded in order. -/
inductive Effect where
  | tokenReviewCall (token : String)
  | sarCall (username uid ns name verb : String)
  | getCall (ns name : String)
  | createCall (cm : ConfigMap)
  | updateCall (cm : ConfigMap)
  | deleteCall (name : String)
deriving DecidableEq, Repr

/-- Is this effect a mutation of the object store? -/
def isStoreWrite : Effect → Bool
  | .createCall _ => true
  | .updateCall _ => true
  | .deleteCall _ => true
  | _ => false

/-- The store mutations among a request's effects. -/
def storeWrites (l : List Effect) : List Effect :=
  l.filter isStoreWrite

/-- The inbound request as the handler observes it.  `basicAuth` is the
result of `req.BasicAuth()` (none when the ok flag is false); `queryID`
is `req.URL.Query().Get("ID")` (empty string when absent); `lockBody` is
the result of JSON-decoding the body as a lockInfo (none on decode
failure); `rawBody` is the raw body bytes read on the POST path. -/
structure Request where
  method : String
  path : String
  basicAuth : Option (String × String) := none
  queryID : String := ""
  contentLength : Int := 0
  lockBody : Option lockInfo := none
  rawBody : List Nat := []
deriving DecidableEq, Repr

/-- The Go handler struct: the three Kubernetes clients (as abstract
response functions), the two codec flags, and the gzip / minify streams
from the standard library (as abstract functions; `gzipDecompress` and
`minifyJSON` return none on a malformed stream). -/
structure Handler where
  tokenReview : String → Except APIError TokenReviewStatus
  sar : String → String → String → String → String → Except APIError Bool
  getConfigMap : String → String → Except APIError ConfigMap
  update : ConfigMap → Except APIError ConfigMap
  create : ConfigMap → Except APIError ConfigMap
  delete : String → Option APIError
  compressState : Bool
  minifyState : Bool
  gzipCompress : List Nat → List Nat
  gzipDecompress : List Nat → Option (List Nat)
  minifyJSON : List Nat → Option (List Nat)

/-- Go `strings.Split(s, "/")` on the character list: the list of
substrings between `/` separators; the empty string splits to `[""]`.
Structurally recursive so that concrete instances compute. -/
def splitSlashChars : List Char → List (List Char)
  | [] => [[]]
  | a :: t =>
    match splitSlashChars t with
    | [] => [[a]]
    | h :: r => if a = '/' then [] :: h :: r else (a :: h) :: r

/-- `strings.Split(req.URL.Path[1:], "/")`: drop the leading slash and
split on `/`. -/
def pathSegments (path : String) : List String :=
  (splitSlashChars (path.data.drop 1)).map String.mk

/-- handleAPIError: a StatusError forwards its code and message, any
other error yields a bare 500. -/
def handleAPIError (e : APIError) : HttpResponse :=
  match e with
  | .statusError code _ msg => { explicitStatus := some code, body := .text msg }
  | .otherError _ => { explicitStatus := some 500 }

/-- checkAccess: performs one SubjectAccessReview for the given verb;
a denial becomes a Forbidden StatusError (code 403). -/
def checkAccess (h : Handler) (apiVerb ns nm : String) (u : UserInfo) :
    Except APIError Unit × List Effect :=
  let eff := [Effect.sarCall u.username u.uid ns nm apiVerb]
  match h.sar u.username u.uid ns nm apiVerb with
  | .error e => (.error e, eff)
  | .ok allowed =>
    if !allowed then
      (.error (APIError.statusError 403 "Forbidden"
        ("configmaps " ++ nm ++ " is forbidden")), eff)
    else (.ok (), eff)

/-- The current LockRecord, projected from the four lock keys with
zero-value lookups — the `existingLockInfo` literal that handler.go
builds on each conflict path. -/
def existingLockInfoOf (cm : ConfigMap) : lockInfo :=
  { ID := gomapGetZ cm.annotations annotationKeyLockID
    Operation := gomapGetZ cm.annotations annotationKeyLockOperation
    Info := gomapGetZ cm.annotations annotationKeyLockInfo
    Who := gomapGetZ cm.annotations annotationKeyLockWho }

/-- checkRequestIsFromLocker: compares the zero-value lock-id lookup
with the `ID` query parameter; some conflict response means the Go
function wrote 423 and returned false, none means it returned true. -/
def checkRequestIsFromLocker (cm : ConfigMap) (req : Request) : Option HttpResponse :=
  if gomapGetZ cm.annotations annotationKeyLockID != req.queryID then
    some { explicitStatus := some 423, body := .lockJSON (existingLockInfoOf cm) }
  else
    none

/-- getTFStateForWriting: the write-path codec.  The writer chain is
buf ← (gzip BestCompression writer, when compressState); the body is
minified into it (when minifyState) or copied verbatim, and the chain is
closed.  The result is therefore gzipCompress applied to the (possibly
minified) body. -/
def getTFStateForWriting (h : Handler) (body : List Nat) : Option (List Nat) :=
  let afterMinify : Option (List Nat) :=
    if h.minifyState then h.minifyJSON body else some body
  match afterMinify with
  | none => none
  | some bs => some (if h.compressState then h.gzipCompress bs else bs)

/-- handleGET: serve the stored tfstate bytes, gzip-decompressed when
compressState is set; nothing is written when no state is stored. -/
def handleGET (h : Handler) (cm : ConfigMap) : HttpResponse :=
  match gomapFindB cm.binaryData "tfstate" with
  | none => {}
  | some state =>
    if h.compressState then
      match h.gzipDecompress state with
      | none =>
        { explicitStatus := some 500,
          body := .text "failed to read compressed Terraform state" }
      | some raw => { body := .stateBytes raw }
    else
      { body := .stateBytes state }

/-- handlePOST: re-check permission for the chosen verb, consult the
write guard, encode the request body, store it under "tfstate" and
create or update the ConfigMap. -/
def handlePOST (h : Handler) (cm0 : ConfigMap) (apiVerb ns nm : String)
    (u : UserInfo) (req : Request) : HttpResponse × List Effect :=
  let acc := checkAccess h apiVerb ns nm u
  match acc.1 with
  | .error e => (handleAPIError e, acc.2)
  | .ok _ =>
    match checkRequestIsFromLocker cm0 req with
    | some resp => (resp, acc.2)
    | none =>
      match getTFStateForWriting h req.rawBody with
      | none =>
        ({ explicitStatus := some 500, body := .text "failed to read request body" },
         acc.2)
      | some ts =>
        let cm1 := { cm0 with binaryData := gomapInsertB cm0.binaryData "tfstate" ts }
        match apiVerb with
        | "update" =>
          let effs := acc.2 ++ [Effect.updateCall cm1]
          match h.update cm1 with
          | .ok _ => ({}, effs)
          | .error e => (handleAPIError e, effs)
        | "create" =>
          let cm2 := { cm1 with name := nm }
          let effs := acc.2 ++ [Effect.createCall cm2]
          match h.create cm2 with
          | .ok _ => ({}, effs)
          | .error e => (handleAPIError e, effs)
        | _ => ({}, acc.2)

/-- handleDELETE: re-check permission, consult the write guard, then
delete.  The error condition is transcribed exactly as in the source:
`err != nil && errors.IsNotFound(err)` surfaces the error — i.e. a
NotFound result is surfaced and every other delete error is swallowed. -/
def handleDELETE (h : Handler) (cm0 : ConfigMap) (ns nm : String)
    (u : UserInfo) (req : Request) : HttpResponse × List Effect :=
  let acc := checkAccess h "delete" ns nm u
  match acc.1 with
  | .error e => (handleAPIError e, acc.2)
  | .ok _ =>
    match checkRequestIsFromLocker cm0 req with
    | some resp => (resp, acc.2)
    | none =>
      let effs := acc.2 ++ [Effect.deleteCall nm]
      match h.delete nm with
      | some e => if isNotFound e then (handleAPIError e, effs) else ({}, effs)
      | none => ({}, effs)

/-- handleLOCK: re-check permission, decode the request body as a
lockInfo, 423 on a held lock with a different id, otherwise overwrite
the four lock keys and create or update the ConfigMap. -/
def handleLOCK (h : Handler) (cm0 : ConfigMap) (apiVerb ns nm : String)
    (u : UserInfo) (req : Request) : HttpResponse × List Effect :=
  let acc := checkAccess h apiVerb ns nm u
  match acc.1 with
  | .error e => (handleAPIError e, acc.2)
  | .ok _ =>
    match req.lockBody with
    | none =>
      ({ explicitStatus := some 500, body := .text "failed to read request body" },
       acc.2)
    | some rl =>
      let conflict :=
        match gomapFind cm0.annotations annotationKeyLockID with
        | some currentLockID => currentLockID != rl.ID
        | none => false
      if conflict then
        ({ explicitStatus := some 423, body := .lockJSON (existingLockInfoOf cm0) },
         acc.2)
      else
        let anns := gomapInsert (gomapInsert (gomapInsert (gomapInsert
          cm0.annotations annotationKeyLockID rl.ID)
          annotationKeyLockOperation rl.Operation)
          annotationKeyLockInfo rl.Info)
          annotationKeyLockWho rl.Who
        let cm1 := { cm0 with annotations := anns }
        match apiVerb with
        | "update" =>
          let effs := acc.2 ++ [Effect.updateCall cm1]
          match h.update cm1 with
          | .ok _ => ({}, effs)
          | .error e => (handleAPIError e, effs)
        | "create" =>
          let cm2 := { cm1 with name := nm }
          let effs := acc.2 ++ [Effect.createCall cm2]
          match h.create cm2 with
          | .ok _ => ({}, effs)
          | .error e => (handleAPIError e, effs)
        | _ => ({}, acc.2)

/-- handleUNLOCK: re-check permission for update; when a body is present
(ContentLength > 0) decode it and 423 on a held lock with a different
id; then unconditionally remove all four lock keys and update. -/
def handleUNLOCK (h : Handler) (cm0 : ConfigMap) (ns nm : String)
    (u : UserInfo) (req : Request) : HttpResponse × List Effect :=
  let acc := checkAccess h "update" ns nm u
  match acc.1 with
  | .error e => (handleAPIError e, acc.2)
  | .ok _ =>
    let bodyCheck : Option HttpResponse :=
      if req.contentLength > 0 then
        match req.lockBody with
        | none =>
          some { explicitStatus := some 500, body := .text "failed to read request body" }
        | some rl =>
          match gomapFind cm0.annotations annotationKeyLockID with
          | some currentLockID =>
            if currentLockID != rl.ID then
              some { explicitStatus := some 423,
                     body := .lockJSON (existingLockInfoOf cm0) }
            else none
          | none => none
      else none
    match bodyCheck with
    | some resp => (resp, acc.2)
    | none =>
      let anns := gomapDelete (gomapDelete (gomapDelete (gomapDelete
        cm0.annotations annotationKeyLockID)
        annotationKeyLockOperation)
        annotationKeyLockInfo)
        annotationKeyLockWho
      let cm1 := { cm0 with annotations := anns }
      let effs := acc.2 ++ [Effect.updateCall cm1]
      match h.update cm1 with
      | .ok _ => ({}, effs)
      | .error e => (handleAPIError e, effs)

/-- ServeHTTP: basic-auth presence check, token review, path split and
length check, baseline "get" SubjectAccessReview, ConfigMap fetch
(NotFound sets exB = false and leaves the empty ConfigMap), then method
dispatch. -/
def ServeHTTP (h : Handler) (req : Request) : HttpResponse × List Effect :=
  match req.basicAuth with
  | none =>
    ({ explicitStatus := some 401,
       headers := [("WWW-Authenticate", "Basic realm=\"Terraform \"")] }, [])
  | some auth =>
    let token := auth.2
    let tokEff := Effect.tokenReviewCall token
    match h.tokenReview token with
    | .error e => (handleAPIError e, [tokEff])
    | .ok trs =>
      if !trs.authenticated then
        ({ explicitStatus := some 403 }, [tokEff])
      else
        let u := trs.user
        let splitPath := pathSegments req.path
        if splitPath.length != 2 then
          ({ explicitStatus := some 404 }, [tokEff])
        else
          let ns := splitPath.getD 0 ""
          let configMapName := splitPath.getD 1 ""
          let sarEff := Effect.sarCall u.username u.uid ns configMapName "get"
          match h.sar u.username u.uid ns configMapName "get" with
          | .error e => (handleAPIError e, [tokEff, sarEff])
          | .ok allowed =>
            if !allowed then
              ({ explicitStatus := some 403 }, [tokEff, sarEff])
            else
              let getEff := Effect.getCall ns configMapName
              let effs0 := [tokEff, sarEff, getEff]
              let fetched : Except APIError (ConfigMap × Bool) :=
                match h.getConfigMap ns configMapName with
                | .ok cm => .ok (cm, true)
                | .error e =>
                  if !(isNotFound e) then .error e else .ok ({}, false)
              match fetched with
              | .error e => (handleAPIError e, effs0)
              | .ok cmEx =>
                let cm := cmEx.1
                let exB := cmEx.2
                match req.method with
                | "GET" => (handleGET h cm, effs0)
                | "POST" =>
                  let verb := if exB then "update" else "create"
                  let r := handlePOST h cm verb ns configMapName u req
                  (r.1, effs0 ++ r.2)
                | "DELETE" =>
                  let r := handleDELETE h cm ns configMapName u req
                  (r.1, effs0 ++ r.2)
                | "LOCK" =>
                  let verb := if exB then "update" else "create"
                  let r := handleLOCK h cm verb ns configMapName u req
                  (r.1, effs0 ++ r.2)
                | "UNLOCK" =>
                  if !exB then
                    ({ explicitStatus := some 404 }, effs0)
                  else
                    let r := handleUNLOCK h cm ns configMapName u req
                    (r.1, effs0 ++ r.2)
                | _ => ({ explicitStatus := some 404 }, effs0)

/-!  Concrete fixtures used as witnesses and counterexamples.  -/

/-- A caller identity. -/
def uOk : UserInfo := { username := "alice", uid := "uid1" }

/-- A handler whose collaborators all succeed: every token authenticates
as `uOk`, every access review allows, the store accepts every call, and
the codec is disabled (with identity gzip / minify stand-ins). -/
def hOk : Handler :=
  { tokenReview := fun _ => .ok { authenticated := true, user := uOk }
    sar := fun _ _ _ _ _ => .ok true
    getConfigMap := fun _ _ => .ok {}
    update := fun c => .ok c
    create := fun c => .ok c
    delete := fun _ => none
    compressState := false
    minifyState := false
    gzipCompress := fun bs => bs
    gzipDecompress := fun bs => some bs
    minifyJSON := fun bs => some bs }

/-- `hOk`, except that the store's delete reports NotFound. -/
def hDelNF : Handler :=
  { hOk with delete := fun _ => some (.statusError 404 "NotFound" "configmaps m not found") }

/-- `hOk`, except that the store's delete fails with an unstructured
error. -/
def hDelOther : Handler :=
  { hOk with delete := fun _ => some (.otherError "transport failure") }

/-- `hOk` with compression enabled (gzip stand-ins still the identity
pair, which satisfies the gzip round-trip contract). -/
def hComp : Handler := { hOk with compressState := true }

/-- A ConfigMap with no annotations. -/
def cmBare : ConfigMap := { name := "m" }

/-- A ConfigMap whose lock-id annotation is present but empty. -/
def cmEmptyId : ConfigMap := { name := "m", annotations := [(annotationKeyLockID, "")] }

/-- A ConfigMap locked by "abc" with a full lock record. -/
def cmLockedAbc : ConfigMap :=
  { name := "m",
    annotations :=
      [(annotationKeyLockID, "abc"), (annotationKeyLockOperation, "plan"),
       (annotationKeyLockInfo, "i"), (annotationKeyLockWho, "w")] }

/-- A lock record with id "x". -/
def rlX : lockInfo := { ID := "x", Operation := "apply", Info := "", Who := "alice@host" }

/-- A lock record with id "abc" (matching `cmLockedAbc`). -/
def rlAbc2 : lockInfo := { ID := "abc", Operation := "apply", Info := "i2", Who := "w2" }

/-- A LOCK request carrying `rlX`. -/
def reqLockX : Request :=
  { method := "LOCK", path := "/n/m", basicAuth := some ("terraform", "tok"),
    contentLength := 42, lockBody := some rlX }

/-- A LOCK request carrying `rlAbc2`. -/
def reqLockAbc2 : Request :=
  { method := "LOCK", path := "/n/m", basicAuth := some ("terraform", "tok"),
    contentLength := 42, lockBody := some rlAbc2 }

/-- An UNLOCK request carrying `rlX` as its body. -/
def reqUnlockX : Request :=
  { method := "UNLOCK", path := "/n/m", basicAuth := some ("terraform", "tok"),
    contentLength := 42, lockBody := some rlX }

/-- An UNLOCK request with no body. -/
def reqUnlockNoBody : Request :=
  { method := "UNLOCK", path := "/n/m", basicAuth := some ("terraform", "tok") }

/-- An UNLOCK request carrying `rlAbc2` as its body (matching the lock
held by `cmLockedAbc`). -/
def reqUnlockAbc2 : Request :=
  { method := "UNLOCK", path := "/n/m", basicAuth := some ("terraform", "tok"),
    contentLength := 42, lockBody := some rlAbc2 }

/-- A DELETE request with an empty `ID` query parameter. -/
def reqDel : Request :=
  { method := "DELETE", path := "/n/m", basicAuth := some ("terraform", "tok") }

/-- A POST request with body bytes and an empty `ID` query parameter. -/
def reqPost : Request :=
  { method := "POST", path := "/n/m", basicAuth := some ("terraform", "tok"),
    rawBody := [123, 125] }

/-- A POST request whose `ID` query parameter is "x". -/
def reqPostQx : Request := { reqPost with queryID := "x" }

/-- A POST request whose `ID` query parameter is "abc". -/
def reqPostAbc : Request := { reqPost with queryID := "abc" }

/-- A DELETE request whose `ID` query parameter is "abc". -/
def reqDelAbc : Request := { reqDel with queryID := "abc" }

/-- An authenticated GET whose path has a trailing slash: it splits into
["a", ""] — two segments, the second empty. -/
def reqGetSlash : Request :=
  { method := "GET", path := "/a/", basicAuth := some ("terraform", "tok") }

/-- An authenticated GET whose path has three segments. -/
def reqThree : Request :=
  { method := "GET", path := "/a/b/c", basicAuth := some ("terraform", "tok") }

/-!  Lemmas about the Go-map model.  -/

theorem find_filter_self (m : Gomap) (k : String) :
    (m.filter (fun p => p.1 != k)).find? (fun p => p.1 == k) = none := by
  induction m with
  | nil => rfl
  | cons a t ih =>
    by_cases h : a.1 = k
    · simp [List.filter_cons, h, ih]
    · simp [List.filter_cons, h, List.find?_cons, ih]

theorem find_filter_comm (m : Gomap) (k q : String) (h : q ≠ k) :
    (m.filter (fun p => p.1 != k)).find? (fun p => p.1 == q) =
      m.find? (fun p => p.1 == q) := by
  induction m with
  | nil => rfl
  | cons a t ih =>
    by_cases hak : a.1 = k
    · have h1 : (a.1 != k) = false := bne_eq_false_iff_eq.mpr hak
      have h2 : (a.1 == q) = false := by
        rw [hak]; exact beq_eq_false_iff_ne.mpr (Ne.symm h)
      simp [List.filter_cons, h1, List.find?_cons, h2, ih]
    · have h1 : (a.1 != k) = true := bne_iff_ne.mpr hak
      by_cases haq : a.1 = q
      · have h2 : (a.1 == q) = true := beq_iff_eq.mpr haq
        simp [List.filter_cons, h1, List.find?_cons, h2]
      · have h2 : (a.1 == q) = false := beq_eq_false_iff_ne.mpr haq
        simp [List.filter_cons, h1, List.find?_cons, h2, ih]

theorem gomapFind_insert_self (m : Gomap) (k v : String) :
    gomapFind (gomapInsert m k v) k = some v := by
  unfold gomapFind gomapInsert
  rw [List.find?_append, find_filter_self]
  simp [List.find?_cons]

theorem gomapFind_insert_ne (m : Gomap) (k v q : String) (h : q ≠ k) :
    gomapFind (gomapInsert m k v) q = gomapFind m q := by
  unfold gomapFind gomapInsert
  rw [List.find?_append, find_filter_comm m k q h]
  have h2 : (k == q) = false := beq_eq_false_iff_ne.mpr (Ne.symm h)
  simp [List.find?_cons, h2]

theorem gomapFind_delete_self (m : Gomap) (k : String) :
    gomapFind (gomapDelete m k) k = none := by
  unfold gomapFind gomapDelete
  rw [find_filter_self]
  rfl

theorem gomapFind_delete_ne (m : Gomap) (k q : String) (h : q ≠ k) :
    gomapFind (gomapDelete m k) q = gomapFind m q := by
  unfold gomapFind gomapDelete
  rw [find_filter_comm m k q h]

/-- Pairwise distinctness of the four lock keys. -/
theorem lockKeys_pairwise :
    annotationKeyLockID ≠ annotationKeyLockOperation ∧
    annotationKeyLockID ≠ annotationKeyLockInfo ∧
    annotationKeyLockID ≠ annotationKeyLockWho ∧
    annotationKeyLockOperation ≠ annotationKeyLockInfo ∧
    annotationKeyLockOperation ≠ annotationKeyLockWho ∧
    annotationKeyLockInfo ≠ annotationKeyLockWho := by decide

/-- After the four assignments performed by the LOCK success path, each
lock key maps to the corresponding field of the requested record. -/
theorem lockAnns_lookup (a : Gomap) (rl : lockInfo) :
    gomapFind (gomapInsert (gomapInsert (gomapInsert (gomapInsert a
        annotationKeyLockID rl.ID) annotationKeyLockOperation rl.Operation)
        annotationKeyLockInfo rl.Info) annotationKeyLockWho rl.Who)
      annotationKeyLockID = some rl.ID ∧
    gomapFind (gomapInsert (gomapInsert (gomapInsert (gomapInsert a
        annotationKeyLockID rl.ID) annotationKeyLockOperation rl.Operation)
        annotationKeyLockInfo rl.Info) annotationKeyLockWho rl.Who)
      annotationKeyLockOperation = some rl.Operation ∧
    gomapFind (gomapInsert (gomapInsert (gomapInsert (gomapInsert a
        annotationKeyLockID rl.ID) annotationKeyLockOperation rl.Operation)
        annotationKeyLockInfo rl.Info) annotationKeyLockWho rl.Who)
      annotationKeyLockInfo = some rl.Info ∧
    gomapFind (gomapInsert (gomapInsert (gomapInsert (gomapInsert a
        annotationKeyLockID rl.ID) annotationKeyLockOperation rl.Operation)
        annotationKeyLockInfo rl.Info) annotationKeyLockWho rl.Who)
      annotationKeyLockWho = some rl.Who := by
  obtain ⟨h1, h2, h3, h4, h5, h6⟩ := lockKeys_pairwise
  refine ⟨?_, ?_, ?_, ?_⟩
  · rw [gomapFind_insert_ne _ _ _ _ h3, gomapFind_insert_ne _ _ _ _ h2,
      gomapFind_insert_ne _ _ _ _ h1, gomapFind_insert_self]
  · rw [gomapFind_insert_ne _ _ _ _ h5, gomapFind_insert_ne _ _ _ _ h4,
      gomapFind_insert_self]
  · rw [gomapFind_insert_ne _ _ _ _ h6, gomapFind_insert_self]
  · rw [gomapFind_insert_self]

/-- After the four deletions performed by the UNLOCK release path, all
four lock keys are absent. -/
theorem lockAnns_removed (a : Gomap) :
    gomapFind (gomapDelete (gomapDelete (gomapDelete (gomapDelete a
        annotationKeyLockID) annotationKeyLockOperation)
        annotationKeyLockInfo) annotationKeyLockWho)
      annotationKeyLockID = none ∧
    gomapFind (gomapDelete (gomapDelete (gomapDelete (gomapDelete a
        annotationKeyLockID) annotationKeyLockOperation)
        annotationKeyLockInfo) annotationKeyLockWho)
      annotationKeyLockOperation = none ∧
    gomapFind (gomapDelete (gomapDelete (gomapDelete (gomapDelete a
        annotationKeyLockID) annotationKeyLockOperation)
        annotationKeyLockInfo) annotationKeyLockWho)
      annotationKeyLockInfo = none ∧
    gomapFind (gomapDelete (gomapDelete (gomapDelete (gomapDelete a
        annotationKeyLockID) annotationKeyLockOperation)
        annotationKeyLockInfo) annotationKeyLockWho)
      annotationKeyLockWho = none := by
  obtain ⟨h1, h2, h3, h4, h5, h6⟩ := lockKeys_pairwise
  refine ⟨?_, ?_, ?_, ?_⟩
  · rw [gomapFind_delete_ne _ _ _ h3, gomapFind_delete_ne _ _ _ h2,
      gomapFind_delete_ne _ _ _ h1, gomapFind_delete_self]
  · rw [gomapFind_delete_ne _ _ _ h5, gomapFind_delete_ne _ _ _ h4,
      gomapFind_delete_self]
  · rw [gomapFind_delete_ne _ _ _ h6, gomapFind_delete_self]
  · rw [gomapFind_delete_self]

/-- Claim C1: a LOCK acquire succeeds (the handler proceeds to persist
and the response carries no explicit status, i.e. 200) exactly when the
current lock-id annotation is absent or equals the requested record's
ID; on success the single store write carries all four lock keys
overwritten with the requested record's values, so an idempotent re-lock
by the same holder succeeds and refreshes the other fields. -/
theorem C1_lock_acquire (h : Handler) (cm : ConfigMap) (verb ns nm : String)
    (u : UserInfo) (req : Request) (rl : lockInfo)
    (hbody : req.lockBody = some rl)
    (hacc : h.sar u.username u.uid ns nm verb = .ok true)
    (hupd : ∀ c, h.update c = .ok c)
    (hcre : ∀ c, h.create c = .ok c)
    (hverb : verb = "update" ∨ verb = "create") :
    ((handleLOCK h cm verb ns nm u req).1.explicitStatus = none ↔
      (gomapFind cm.annotations annotationKeyLockID = none ∨
       gomapFind cm.annotations annotationKeyLockID = some rl.ID)) ∧
    ((gomapFind cm.annotations annotationKeyLockID = none ∨
      gomapFind cm.annotations annotationKeyLockID = some rl.ID) →
      ∃ cmX,
        (storeWrites (handleLOCK h cm verb ns nm u req).2 = [Effect.updateCall cmX] ∨
         storeWrites (handleLOCK h cm verb ns nm u req).2 = [Effect.createCall cmX]) ∧
        gomapFind cmX.annotations annotationKeyLockID = some rl.ID ∧
        gomapFind cmX.annotations annotationKeyLockOperation = some rl.Operation ∧
        gomapFind cmX.annotations annotationKeyLockInfo = some rl.Info ∧
        gomapFind cmX.annotations annotationKeyLockWho = some rl.Who) := by
  constructor
  · rcases hfind : gomapFind cm.annotations annotationKeyLockID with _ | cur
    · rcases hverb with hv | hv <;> subst hv <;>
        simp [handleLOCK, checkAccess, hacc, hbody, hfind, hupd, hcre]
    · by_cases hcur : cur = rl.ID
      · subst hcur
        rcases hverb with hv | hv <;> subst hv <;>
          simp [handleLOCK, checkAccess, hacc, hbody, hfind, hupd, hcre]
      · rcases hverb with hv | hv <;> subst hv <;>
          simp [handleLOCK, checkAccess, hacc, hbody, hfind, hcur, hupd, hcre]
  · intro hok
    have hconf :
        (match gomapFind cm.annotations annotationKeyLockID with
          | some currentLockID => currentLockID != rl.ID
          | none => false) = false := by
      rcases hok with hn | hs
      · rw [hn]
      · rw [hs]; simp
    rcases hverb with hv | hv <;> subst hv
    · refine ⟨{ cm with annotations := gomapInsert (gomapInsert (gomapInsert (gomapInsert
          cm.annotations annotationKeyLockID rl.ID) annotationKeyLockOperation rl.Operation)
          annotationKeyLockInfo rl.Info) annotationKeyLockWho rl.Who },
        Or.inl ?_, (lockAnns_lookup cm.annotations rl).1,
        (lockAnns_lookup cm.annotations rl).2.1,
        (lockAnns_lookup cm.annotations rl).2.2.1,
        (lockAnns_lookup cm.annotations rl).2.2.2⟩
      simp [handleLOCK, checkAccess, hacc, hbody, hconf, hupd, storeWrites, isStoreWrite]
    · refine ⟨{ cm with name := nm, annotations := gomapInsert (gomapInsert (gomapInsert (gomapInsert
          cm.annotations annotationKeyLockID rl.ID) annotationKeyLockOperation rl.Operation)
          annotationKeyLockInfo rl.Info) annotationKeyLockWho rl.Who },
        Or.inr ?_, (lockAnns_lookup cm.annotations rl).1,
        (lockAnns_lookup cm.annotations rl).2.1,
        (lockAnns_lookup cm.annotations rl).2.2.1,
        (lockAnns_lookup cm.annotations rl).2.2.2⟩
      simp [handleLOCK, checkAccess, hacc, hbody, hconf, hupd, hcre, storeWrites, isStoreWrite]

/-- Witness for C1: re-lock of `cmLockedAbc` (held by "abc") with a new
record whose ID is also "abc" succeeds and refreshes all fields. -/
theorem C1_lock_acquire_witness :
    ((handleLOCK hOk cmLockedAbc "update" "n" "m" uOk reqLockAbc2).1.explicitStatus = none ↔
      (gomapFind cmLockedAbc.annotations annotationKeyLockID = none ∨
       gomapFind cmLockedAbc.annotations annotationKeyLockID = some rlAbc2.ID)) ∧
    ((gomapFind cmLockedAbc.annotations annotationKeyLockID = none ∨
      gomapFind cmLockedAbc.annotations annotationKeyLockID = some rlAbc2.ID) →
      ∃ cmX,
        (storeWrites (handleLOCK hOk cmLockedAbc "update" "n" "m" uOk reqLockAbc2).2 =
            [Effect.updateCall cmX] ∨
         storeWrites (handleLOCK hOk cmLockedAbc "update" "n" "m" uOk reqLockAbc2).2 =
            [Effect.createCall cmX]) ∧
        gomapFind cmX.annotations annotationKeyLockID = some rlAbc2.ID ∧
        gomapFind cmX.annotations annotationKeyLockOperation = some rlAbc2.Operation ∧
        gomapFind cmX.annotations annotationKeyLockInfo = some rlAbc2.Info ∧
        gomapFind cmX.annotations annotationKeyLockWho = some rlAbc2.Who) :=
  C1_lock_acquire hOk cmLockedAbc "update" "n" "m" uOk reqLockAbc2 rlAbc2 rfl rfl
    (fun _ => rfl) (fun _ => rfl) (Or.inl rfl)

/-- Claim C2: with the lock held by id A, a LOCK whose body carries id
B ≠ A and an UNLOCK whose non-empty body carries id B ≠ A both answer
423 with the current LockRecord (projected from the four annotations) as
body, and make no create, update or delete call to the store. -/
theorem C2_conflict_423 (h : Handler) (cm : ConfigMap) (A verb ns nm : String)
    (u : UserInfo) (reqL reqU : Request) (rlL rlU : lockInfo)
    (hA : gomapFind cm.annotations annotationKeyLockID = some A)
    (hbL : reqL.lockBody = some rlL) (hneL : rlL.ID ≠ A)
    (hbU : reqU.lockBody = some rlU) (hneU : rlU.ID ≠ A)
    (hcl : reqU.contentLength > 0)
    (haccL : h.sar u.username u.uid ns nm verb = .ok true)
    (haccU : h.sar u.username u.uid ns nm "update" = .ok true) :
    (handleLOCK h cm verb ns nm u reqL).1 =
      { explicitStatus := some 423, body := .lockJSON (existingLockInfoOf cm) } ∧
    storeWrites (handleLOCK h cm verb ns nm u reqL).2 = [] ∧
    (handleUNLOCK h cm ns nm u reqU).1 =
      { explicitStatus := some 423, body := .lockJSON (existingLockInfoOf cm) } ∧
    storeWrites (handleUNLOCK h cm ns nm u reqU).2 = [] := by
  have hne1 : (A != rlL.ID) = true := bne_iff_ne.mpr (Ne.symm hneL)
  have hne2 : (A != rlU.ID) = true := bne_iff_ne.mpr (Ne.symm hneU)
  refine ⟨?_, ?_, ?_, ?_⟩ <;>
    simp [handleLOCK, handleUNLOCK, checkAccess, haccL, haccU, hbL, hbU, hA,
      hne1, hne2, hcl, storeWrites, isStoreWrite]

/-- Witness for C2: object locked by "abc", LOCK and UNLOCK requests
carrying id "x". -/
theorem C2_conflict_423_witness :
    (handleLOCK hOk cmLockedAbc "update" "n" "m" uOk reqLockX).1 =
      { explicitStatus := some 423, body := .lockJSON (existingLockInfoOf cmLockedAbc) } ∧
    storeWrites (handleLOCK hOk cmLockedAbc "update" "n" "m" uOk reqLockX).2 = [] ∧
    (handleUNLOCK hOk cmLockedAbc "n" "m" uOk reqUnlockX).1 =
      { explicitStatus := some 423, body := .lockJSON (existingLockInfoOf cmLockedAbc) } ∧
    storeWrites (handleUNLOCK hOk cmLockedAbc "n" "m" uOk reqUnlockX).2 = [] :=
  C2_conflict_423 hOk cmLockedAbc "abc" "update" "n" "m" uOk reqLockX reqUnlockX rlX rlX
    rfl rfl (by decide) rfl (by decide) (by decide) rfl rfl

/-- Claim C3: the POST/DELETE write guard passes exactly when the `ID`
query parameter equals the current lock-id annotation under zero-value
lookups (absent on either side counts as ""); on mismatch both handlers
answer 423 with the current LockRecord and perform no store mutation,
and on match both proceed with the mutation. -/
theorem C3_write_guard (h : Handler) (cm : ConfigMap) (verb ns nm : String)
    (u : UserInfo) (reqP reqD : Request) (ts : List Nat)
    (haccP : h.sar u.username u.uid ns nm verb = .ok true)
    (haccD : h.sar u.username u.uid ns nm "delete" = .ok true)
    (hverb : verb = "update" ∨ verb = "create")
    (hEnc : getTFStateForWriting h reqP.rawBody = some ts)
    (hupd : ∀ c, h.update c = .ok c) (hcre : ∀ c, h.create c = .ok c)
    (hdel : h.delete nm = none) :
    (checkRequestIsFromLocker cm reqP = none ↔
      gomapGetZ cm.annotations annotationKeyLockID = reqP.queryID) ∧
    (gomapGetZ cm.annotations annotationKeyLockID ≠ reqP.queryID →
      (handlePOST h cm verb ns nm u reqP).1 =
        { explicitStatus := some 423, body := .lockJSON (existingLockInfoOf cm) } ∧
      storeWrites (handlePOST h cm verb ns nm u reqP).2 = []) ∧
    (gomapGetZ cm.annotations annotationKeyLockID = reqP.queryID →
      (handlePOST h cm verb ns nm u reqP).1.explicitStatus = none ∧
      (∃ cmX,
        storeWrites (handlePOST h cm verb ns nm u reqP).2 = [Effect.updateCall cmX] ∨
        storeWrites (handlePOST h cm verb ns nm u reqP).2 = [Effect.createCall cmX])) ∧
    (gomapGetZ cm.annotations annotationKeyLockID ≠ reqD.queryID →
      (handleDELETE h cm ns nm u reqD).1 =
        { explicitStatus := some 423, body := .lockJSON (existingLockInfoOf cm) } ∧
      storeWrites (handleDELETE h cm ns nm u reqD).2 = []) ∧
    (gomapGetZ cm.annotations annotationKeyLockID = reqD.queryID →
      (handleDELETE h cm ns nm u reqD).1.explicitStatus = none ∧
      storeWrites (handleDELETE h cm ns nm u reqD).2 = [Effect.deleteCall nm]) := by
  refine ⟨?_, ?_, ?_, ?_, ?_⟩
  · by_cases he : gomapGetZ cm.annotations annotationKeyLockID = reqP.queryID
    · simp [checkRequestIsFromLocker, he]
    · have hb : (gomapGetZ cm.annotations annotationKeyLockID != reqP.queryID) = true :=
        bne_iff_ne.mpr he
      simp [checkRequestIsFromLocker, hb, he]
  · intro he
    have hb : (gomapGetZ cm.annotations annotationKeyLockID != reqP.queryID) = true :=
      bne_iff_ne.mpr he
    constructor <;>
      simp [handlePOST, checkAccess, haccP, checkRequestIsFromLocker, hb,
        storeWrites, isStoreWrite]
  · intro he
    have hb : (gomapGetZ cm.annotations annotationKeyLockID != reqP.queryID) = false :=
      bne_eq_false_iff_eq.mpr he
    rcases hverb with hv | hv <;> subst hv
    · refine ⟨?_, ({ cm with binaryData := gomapInsertB cm.binaryData "tfstate" ts }), Or.inl ?_⟩ <;>
        simp [handlePOST, checkAccess, haccP, checkRequestIsFromLocker, hb, hEnc,
          hupd, storeWrites, isStoreWrite]
    · refine ⟨?_, ({ cm with
          name := nm
          binaryData := gomapInsertB cm.binaryData "tfstate" ts }), Or.inr ?_⟩ <;>
        simp [handlePOST, checkAccess, haccP, checkRequestIsFromLocker, hb, hEnc,
          hcre, storeWrites, isStoreWrite]
  · intro he
    have hb : (gomapGetZ cm.annotations annotationKeyLockID != reqD.queryID) = true :=
      bne_iff_ne.mpr he
    constructor <;>
      simp [handleDELETE, checkAccess, haccD, checkRequestIsFromLocker, hb,
        storeWrites, isStoreWrite]
  · intro he
    have hb : (gomapGetZ cm.annotations annotationKeyLockID != reqD.queryID) = false :=
      bne_eq_false_iff_eq.mpr he
    constructor <;>
      simp [handleDELETE, checkAccess, haccD, checkRequestIsFromLocker, hb, hdel,
        storeWrites, isStoreWrite]

/-- Witness for C3: object locked by "abc", POST and DELETE with an
empty `ID` query parameter. -/
theorem C3_write_guard_witness :
    (checkRequestIsFromLocker cmLockedAbc reqPost = none ↔
      gomapGetZ cmLockedAbc.annotations annotationKeyLockID = reqPost.queryID) ∧
    (gomapGetZ cmLockedAbc.annotations annotationKeyLockID ≠ reqPost.queryID →
      (handlePOST hOk cmLockedAbc "update" "n" "m" uOk reqPost).1 =
        { explicitStatus := some 423, body := .lockJSON (existingLockInfoOf cmLockedAbc) } ∧
      storeWrites (handlePOST hOk cmLockedAbc "update" "n" "m" uOk reqPost).2 = []) ∧
    (gomapGetZ cmLockedAbc.annotations annotationKeyLockID = reqPost.queryID →
      (handlePOST hOk cmLockedAbc "update" "n" "m" uOk reqPost).1.explicitStatus = none ∧
      (∃ cmX,
        storeWrites (handlePOST hOk cmLockedAbc "update" "n" "m" uOk reqPost).2 =
          [Effect.updateCall cmX] ∨
        storeWrites (handlePOST hOk cmLockedAbc "update" "n" "m" uOk reqPost).2 =
          [Effect.createCall cmX])) ∧
    (gomapGetZ cmLockedAbc.annotations annotationKeyLockID ≠ reqDel.queryID →
      (handleDELETE hOk cmLockedAbc "n" "m" uOk reqDel).1 =
        { explicitStatus := some 423, body := .lockJSON (existingLockInfoOf cmLockedAbc) } ∧
      storeWrites (handleDELETE hOk cmLockedAbc "n" "m" uOk reqDel).2 = []) ∧
    (gomapGetZ cmLockedAbc.annotations annotationKeyLockID = reqDel.queryID →
      (handleDELETE hOk cmLockedAbc "n" "m" uOk reqDel).1.explicitStatus = none ∧
      storeWrites (handleDELETE hOk cmLockedAbc "n" "m" uOk reqDel).2 =
        [Effect.deleteCall "m"]) :=
  C3_write_guard hOk cmLockedAbc "update" "n" "m" uOk reqPost reqDel [123, 125]
    rfl rfl (Or.inl rfl) rfl (fun _ => rfl) (fun _ => rfl) rfl

/-- Counterexample for C4 as stated: a present-but-empty lock-id
annotation does NOT behave like an absent one on the LOCK path.  With
the id annotation present and equal to "", a LOCK carrying id "x" is
answered 423 with no store write (the object is treated as locked),
while the same request on an object without the annotation succeeds. -/
theorem C4_counterexample :
    gomapFind cmEmptyId.annotations annotationKeyLockID = some "" ∧
    (handleLOCK hOk cmEmptyId "update" "n" "m" uOk reqLockX).1.explicitStatus = some 423 ∧
    storeWrites (handleLOCK hOk cmEmptyId "update" "n" "m" uOk reqLockX).2 = [] ∧
    (handleLOCK hOk cmBare "update" "n" "m" uOk reqLockX).1.explicitStatus = none := by
  refine ⟨by decide, by decide, by decide, by decide⟩

/-- Claim C4 as amended: LOCK and UNLOCK treat the object as locked iff
the lock-id annotation KEY is present (comma-ok lookup), even when its
value is empty — they conflict exactly when a present current id differs
from the requested id; only the POST/DELETE write guard compares
zero-value lookups, so there a present-but-empty id behaves like an
absent one. -/
theorem C4_amended_lock_predicate (h : Handler) (cm : ConfigMap) (verb ns nm : String)
    (u : UserInfo) (reqL reqU reqW : Request) (rlL rlU : lockInfo)
    (hbL : reqL.lockBody = some rlL)
    (hbU : reqU.lockBody = some rlU) (hclU : reqU.contentLength > 0)
    (haccV : h.sar u.username u.uid ns nm verb = .ok true)
    (haccU : h.sar u.username u.uid ns nm "update" = .ok true)
    (hupd : ∀ c, h.update c = .ok c)
    (hcre : ∀ c, h.create c = .ok c) :
    ((handleLOCK h cm verb ns nm u reqL).1.explicitStatus = some 423 ↔
      (∃ cur, gomapFind cm.annotations annotationKeyLockID = some cur ∧ cur ≠ rlL.ID)) ∧
    ((handleUNLOCK h cm ns nm u reqU).1.explicitStatus = some 423 ↔
      (∃ cur, gomapFind cm.annotations annotationKeyLockID = some cur ∧ cur ≠ rlU.ID)) ∧
    (checkRequestIsFromLocker cm reqW = none ↔
      gomapGetZ cm.annotations annotationKeyLockID = reqW.queryID) := by
  refine ⟨?_, ?_, ?_⟩
  · rcases hfind : gomapFind cm.annotations annotationKeyLockID with _ | cur
    · rcases em (verb = "update") with hv | hv
      · subst hv; simp [handleLOCK, checkAccess, haccV, hbL, hfind, hupd]
      · rcases em (verb = "create") with hv2 | hv2
        · subst hv2; simp [handleLOCK, checkAccess, haccV, hbL, hfind, hcre]
        · simp [handleLOCK, checkAccess, haccV, hbL, hfind, hv, hv2]
    · by_cases hcur : cur = rlL.ID
      · subst hcur
        rcases em (verb = "update") with hv | hv
        · subst hv; simp [handleLOCK, checkAccess, haccV, hbL, hfind, hupd]
        · rcases em (verb = "create") with hv2 | hv2
          · subst hv2; simp [handleLOCK, checkAccess, haccV, hbL, hfind, hcre]
          · simp [handleLOCK, checkAccess, haccV, hbL, hfind, hv, hv2]
      · simp [handleLOCK, checkAccess, haccV, hbL, hfind, hcur]
  · rcases hfind : gomapFind cm.annotations annotationKeyLockID with _ | cur
    · simp [handleUNLOCK, checkAccess, haccU, hbU, hclU, hfind, hupd]
    · by_cases hcur : cur = rlU.ID
      · subst hcur; simp [handleUNLOCK, checkAccess, haccU, hbU, hclU, hfind, hupd]
      · simp [handleUNLOCK, checkAccess, haccU, hbU, hclU, hfind, hcur]
  · by_cases he : gomapGetZ cm.annotations annotationKeyLockID = reqW.queryID
    · simp [checkRequestIsFromLocker, he]
    · have hb : (gomapGetZ cm.annotations annotationKeyLockID != reqW.queryID) = true :=
        bne_iff_ne.mpr he
      simp [checkRequestIsFromLocker, hb, he]

/-- Witness for the amended C4: object with a present-but-empty id
annotation, LOCK/UNLOCK bodies with id "x", POST guard query "x". -/
theorem C4_amended_lock_predicate_witness :
    ((handleLOCK hOk cmEmptyId "update" "n" "m" uOk reqLockX).1.explicitStatus = some 423 ↔
      (∃ cur, gomapFind cmEmptyId.annotations annotationKeyLockID = some cur ∧
        cur ≠ rlX.ID)) ∧
    ((handleUNLOCK hOk cmEmptyId "n" "m" uOk reqUnlockX).1.explicitStatus = some 423 ↔
      (∃ cur, gomapFind cmEmptyId.annotations annotationKeyLockID = some cur ∧
        cur ≠ rlX.ID)) ∧
    (checkRequestIsFromLocker cmEmptyId reqPostQx = none ↔
      gomapGetZ cmEmptyId.annotations annotationKeyLockID = reqPostQx.queryID) :=
  C4_amended_lock_predicate hOk cmEmptyId "update" "n" "m" uOk reqLockX reqUnlockX
    reqPostQx rlX rlX rfl rfl (by decide) rfl rfl (fun _ => rfl) (fun _ => rfl)

/-- Claim C5: an UNLOCK whose request carries no body (ContentLength not
positive) skips the ownership check entirely: whatever record currently
holds the lock, the handler answers success and performs exactly one
update call whose ConfigMap has all four lock keys removed. -/
theorem C5_forced_unlock (h : Handler) (cm : ConfigMap) (ns nm : String)
    (u : UserInfo) (req : Request)
    (hlen : req.contentLength ≤ 0)
    (hacc : h.sar u.username u.uid ns nm "update" = .ok true)
    (hupd : ∀ c, h.update c = .ok c) :
    (handleUNLOCK h cm ns nm u req).1.explicitStatus = none ∧
    ∃ cmX,
      storeWrites (handleUNLOCK h cm ns nm u req).2 = [Effect.updateCall cmX] ∧
      gomapFind cmX.annotations annotationKeyLockID = none ∧
      gomapFind cmX.annotations annotationKeyLockOperation = none ∧
      gomapFind cmX.annotations annotationKeyLockInfo = none ∧
      gomapFind cmX.annotations annotationKeyLockWho = none := by
  have hnotpos : ¬ (req.contentLength > 0) := by omega
  refine ⟨?_, ⟨({ cm with annotations := gomapDelete (gomapDelete (gomapDelete (gomapDelete
      cm.annotations annotationKeyLockID) annotationKeyLockOperation)
      annotationKeyLockInfo) annotationKeyLockWho }), ?_,
    (lockAnns_removed cm.annotations).1,
    (lockAnns_removed cm.annotations).2.1,
    (lockAnns_removed cm.annotations).2.2.1,
    (lockAnns_removed cm.annotations).2.2.2⟩⟩ <;>
    simp [handleUNLOCK, checkAccess, hacc, hnotpos, hupd, storeWrites, isStoreWrite]

/-- Witness for C5: bodyless UNLOCK on the object locked by "abc". -/
theorem C5_forced_unlock_witness :
    (handleUNLOCK hOk cmLockedAbc "n" "m" uOk reqUnlockNoBody).1.explicitStatus = none ∧
    ∃ cmX,
      storeWrites (handleUNLOCK hOk cmLockedAbc "n" "m" uOk reqUnlockNoBody).2 =
        [Effect.updateCall cmX] ∧
      gomapFind cmX.annotations annotationKeyLockID = none ∧
      gomapFind cmX.annotations annotationKeyLockOperation = none ∧
      gomapFind cmX.annotations annotationKeyLockInfo = none ∧
      gomapFind cmX.annotations annotationKeyLockWho = none :=
  C5_forced_unlock hOk cmLockedAbc "n" "m" uOk reqUnlockNoBody (by decide) rfl
    (fun _ => rfl)

/-- Code bug behind C6: handler.go line 276 reads
`if err = Delete(...); err != nil && errors.IsNotFound(err)` — the
condition is inverted relative to the documented intent ("a NotFound
result at delete time is tolerated"), so a NotFound delete result is
surfaced to the client (here 404 with the error text) while every other
delete error is silently swallowed (no explicit status, observed 200). -/
theorem C6_delete_error_inverted :
    ((handleDELETE hDelNF cmBare "n" "m" uOk reqDel).1.explicitStatus = some 404 ∧
     (handleDELETE hDelNF cmBare "n" "m" uOk reqDel).1.body =
       .text "configmaps m not found") ∧
    ((handleDELETE hDelOther cmBare "n" "m" uOk reqDel).1.explicitStatus = none ∧
     observedStatus (handleDELETE hDelOther cmBare "n" "m" uOk reqDel).1 = 200) := by
  refine ⟨⟨by decide, by decide⟩, by decide, by decide⟩

/-- Counterexample for C7 as stated: the path "/a/" splits into
["a", ""] — two segments, the second empty — yet the authenticated
request is NOT answered 404: the dispatcher continues, performing the
baseline authorization check and the object fetch. -/
theorem C7_counterexample :
    pathSegments reqGetSlash.path = ["a", ""] ∧
    (ServeHTTP hOk reqGetSlash).1.explicitStatus ≠ some 404 ∧
    (ServeHTTP hOk reqGetSlash).2 =
      [Effect.tokenReviewCall "tok", Effect.sarCall "alice" "uid1" "a" "" "get",
       Effect.getCall "a" ""] := by
  refine ⟨by decide, by decide, by decide⟩

/-- Claim C7 as amended: for every authenticated request whose path,
after removing the leading slash and splitting on "/", does not yield
exactly two segments (segments may be empty — only the count is
checked), the response is 404 and no further processing occurs: the
token review is the only collaborator call. -/
theorem C7_amended_path_validation (h : Handler) (req : Request)
    (cred : String × String) (trs : TokenReviewStatus)
    (hauth : req.basicAuth = some cred)
    (htr : h.tokenReview cred.2 = .ok trs)
    (hA : trs.authenticated = true)
    (hsplit : (pathSegments req.path).length ≠ 2) :
    ServeHTTP h req = ({ explicitStatus := some 404 }, [Effect.tokenReviewCall cred.2]) := by
  unfold ServeHTTP
  rw [hauth]
  simp only [htr, hA, Bool.not_true, Bool.false_eq_true, if_false]
  have hb : ((pathSegments req.path).length != 2) = true := by
    simpa using hsplit
  simp [hb]

/-- Witness for the amended C7: a three-segment path is answered 404
right after authentication. -/
theorem C7_amended_path_validation_witness :
    ServeHTTP hOk reqThree = ({ explicitStatus := some 404 }, [Effect.tokenReviewCall "tok"]) :=
  C7_amended_path_validation hOk reqThree ("terraform", "tok")
    { authenticated := true, user := uOk } rfl rfl rfl (by decide)

/-- Claim C8: a request presenting no basic-auth credential is answered
401 with the `WWW-Authenticate: Basic` challenge header, whatever its
method or path, and no collaborator call is made. -/
theorem C8_unauthenticated (h : Handler) (req : Request)
    (hauth : req.basicAuth = none) :
    ServeHTTP h req =
      ({ explicitStatus := some 401,
         headers := [("WWW-Authenticate", "Basic realm=\"Terraform \"")] }, []) := by
  unfold ServeHTTP
  rw [hauth]

/-- Witness for C8: a credential-less GET. -/
theorem C8_unauthenticated_witness :
    ServeHTTP hOk { method := "GET", path := "/n/m" } =
      ({ explicitStatus := some 401,
         headers := [("WWW-Authenticate", "Basic realm=\"Terraform \"")] }, []) :=
  C8_unauthenticated hOk { method := "GET", path := "/n/m" } rfl

/-- Claim C9: with compressState = true and minifyState = false, for any
gzip implementation satisfying the round-trip contract and any byte
payload (including the empty one), the write-path encoding is exactly
the gzip compression of the payload, and a GET of an object storing
those bytes serves the original payload with no error status. -/
theorem C9_codec_roundtrip (h : Handler) (payload : List Nat) (nm : String) (anns : Gomap)
    (hc : h.compressState = true) (hm : h.minifyState = false)
    (hrt : ∀ bs, h.gzipDecompress (h.gzipCompress bs) = some bs) :
    getTFStateForWriting h payload = some (h.gzipCompress payload) ∧
    handleGET h { name := nm
                  annotations := anns
                  binaryData := [("tfstate", h.gzipCompress payload)] } =
      { body := .stateBytes payload } := by
  constructor
  · simp [getTFStateForWriting, hm, hc]
  · simp [handleGET, gomapFindB, List.find?_cons, hc, hrt]

/-- Witness for C9: the identity gzip pair on payload [1, 2, 3]. -/
theorem C9_codec_roundtrip_witness :
    getTFStateForWriting hComp [1, 2, 3] = some (hComp.gzipCompress [1, 2, 3]) ∧
    handleGET hComp { name := "m"
                      annotations := []
                      binaryData := [("tfstate", hComp.gzipCompress [1, 2, 3])] } =
      { body := .stateBytes [1, 2, 3] } :=
  C9_codec_roundtrip hComp [1, 2, 3] "m" [] rfl rfl (fun _ => rfl)

/-- Claim C10: on every fully successful POST, DELETE, LOCK and UNLOCK
(access allowed, guard or lock check passed, body readable, store call
succeeding) the handler writes no explicit status code, so the client
observes net/http's default 200 — never 201 or 204.  The UNLOCK
hypothesis covers every successful release: either no body is supplied,
or the supplied body parses and its ID passes the ownership check
(current id absent or equal). -/
theorem C10_success_implicit_200 (h : Handler) (cm : ConfigMap)
    (verbP verbL ns nm : String) (u : UserInfo)
    (reqP reqD reqL reqU : Request) (rl : lockInfo) (ts : List Nat)
    (haccP : h.sar u.username u.uid ns nm verbP = .ok true)
    (hguardP : gomapGetZ cm.annotations annotationKeyLockID = reqP.queryID)
    (hEnc : getTFStateForWriting h reqP.rawBody = some ts)
    (hverbP : verbP = "update" ∨ verbP = "create")
    (haccD : h.sar u.username u.uid ns nm "delete" = .ok true)
    (hguardD : gomapGetZ cm.annotations annotationKeyLockID = reqD.queryID)
    (hdel : h.delete nm = none)
    (haccL : h.sar u.username u.uid ns nm verbL = .ok true)
    (hbL : reqL.lockBody = some rl)
    (hverbL : verbL = "update" ∨ verbL = "create")
    (hnoconf : gomapFind cm.annotations annotationKeyLockID = none ∨
      gomapFind cm.annotations annotationKeyLockID = some rl.ID)
    (haccU : h.sar u.username u.uid ns nm "update" = .ok true)
    (hUnl : reqU.contentLength ≤ 0 ∨
      ∃ rlU, reqU.lockBody = some rlU ∧
        (gomapFind cm.annotations annotationKeyLockID = none ∨
         gomapFind cm.annotations annotationKeyLockID = some rlU.ID))
    (hupd : ∀ c, h.update c = .ok c) (hcre : ∀ c, h.create c = .ok c) :
    ((handlePOST h cm verbP ns nm u reqP).1.explicitStatus = none ∧
     observedStatus (handlePOST h cm verbP ns nm u reqP).1 = 200) ∧
    ((handleDELETE h cm ns nm u reqD).1.explicitStatus = none ∧
     observedStatus (handleDELETE h cm ns nm u reqD).1 = 200) ∧
    ((handleLOCK h cm verbL ns nm u reqL).1.explicitStatus = none ∧
     observedStatus (handleLOCK h cm verbL ns nm u reqL).1 = 200) ∧
    ((handleUNLOCK h cm ns nm u reqU).1.explicitStatus = none ∧
     observedStatus (handleUNLOCK h cm ns nm u reqU).1 = 200) := by
  have hguardPb : (gomapGetZ cm.annotations annotationKeyLockID != reqP.queryID) = false :=
    bne_eq_false_iff_eq.mpr hguardP
  have hguardDb : (gomapGetZ cm.annotations annotationKeyLockID != reqD.queryID) = false :=
    bne_eq_false_iff_eq.mpr hguardD
  have hconfL : (match gomapFind cm.annotations annotationKeyLockID with
      | some currentLockID => currentLockID != rl.ID
      | none => false) = false := by
    rcases hnoconf with hn | hs
    · rw [hn]
    · rw [hs]; simp
  have hP : (handlePOST h cm verbP ns nm u reqP).1.explicitStatus = none := by
    rcases hverbP with hv | hv <;> subst hv <;>
      simp [handlePOST, checkAccess, haccP, checkRequestIsFromLocker, hguardPb,
        hEnc, hupd, hcre]
  have hD : (handleDELETE h cm ns nm u reqD).1.explicitStatus = none := by
    simp [handleDELETE, checkAccess, haccD, checkRequestIsFromLocker, hguardDb, hdel]
  have hL : (handleLOCK h cm verbL ns nm u reqL).1.explicitStatus = none := by
    rcases hverbL with hv | hv <;> subst hv <;>
      simp [handleLOCK, checkAccess, haccL, hbL, hconfL, hupd, hcre]
  have hU : (handleUNLOCK h cm ns nm u reqU).1.explicitStatus = none := by
    rcases hUnl with hlen | ⟨rlU, hbU, hok⟩
    · have hnotposU : ¬ (reqU.contentLength > 0) := by omega
      simp [handleUNLOCK, checkAccess, haccU, hnotposU, hupd]
    · rcases hok with hn | hs
      · by_cases hpos : reqU.contentLength > 0 <;>
          simp [handleUNLOCK, checkAccess, haccU, hpos, hbU, hn, hupd]
      · by_cases hpos : reqU.contentLength > 0 <;>
          simp [handleUNLOCK, checkAccess, haccU, hpos, hbU, hs, hupd]
  exact ⟨⟨hP, by simp [observedStatus, hP]⟩, ⟨hD, by simp [observedStatus, hD]⟩,
    ⟨hL, by simp [observedStatus, hL]⟩, ⟨hU, by simp [observedStatus, hU]⟩⟩

/-- Witness for C10: on the object locked by "abc", a POST and a DELETE
carrying `ID=abc`, an idempotent re-LOCK with id "abc", and an UNLOCK
whose supplied body carries the matching id "abc" (the normal Terraform
release) all succeed with the implicit 200. -/
theorem C10_success_implicit_200_witness :
    ((handlePOST hOk cmLockedAbc "update" "n" "m" uOk reqPostAbc).1.explicitStatus = none ∧
     observedStatus (handlePOST hOk cmLockedAbc "update" "n" "m" uOk reqPostAbc).1 = 200) ∧
    ((handleDELETE hOk cmLockedAbc "n" "m" uOk reqDelAbc).1.explicitStatus = none ∧
     observedStatus (handleDELETE hOk cmLockedAbc "n" "m" uOk reqDelAbc).1 = 200) ∧
    ((handleLOCK hOk cmLockedAbc "update" "n" "m" uOk reqLockAbc2).1.explicitStatus = none ∧
     observedStatus (handleLOCK hOk cmLockedAbc "update" "n" "m" uOk reqLockAbc2).1 = 200) ∧
    ((handleUNLOCK hOk cmLockedAbc "n" "m" uOk reqUnlockAbc2).1.explicitStatus = none ∧
     observedStatus (handleUNLOCK hOk cmLockedAbc "n" "m" uOk reqUnlockAbc2).1 = 200) :=
  C10_success_implicit_200 hOk cmLockedAbc "update" "update" "n" "m" uOk
    reqPostAbc reqDelAbc reqLockAbc2 reqUnlockAbc2 rlAbc2 [123, 125]
    rfl (by decide) rfl (Or.inl rfl) rfl (by decide) rfl rfl rfl (Or.inl rfl)
    (Or.inr (by decide)) rfl (Or.inr ⟨rlAbc2, rfl, Or.inr (by decide)⟩)
    (fun _ => rfl) (fun _ => rfl)
